import Mathlib

/-!
Shallow embedding of the AMLSentinel alert-investigation core
(`src/backend/api/repositories/alert.py`, `src/backend/api/routes/alerts.py`,
`src/backend/api/services/similar_cases.py`).

The persistent store is modelled as a `List Alert` (resp. `List Customer`,
`List AuditEntry`); SQLAlchemy row lookups become `List.find?` on the primary
key, row updates become positional `List.map` replacement, and the `Float`
column `total_flagged_amount` is embedded as `ℚ` (the only arithmetic ever
performed on it is subtraction, halving and comparison, all exact).
Timestamps are uninterpreted strings supplied as an explicit `now` parameter.
-/

namespace AMLS

/-- Embedding of the SQLAlchemy `Alert` model (`api/models/alert.py`).
`id` is the UUID primary key, `alert_id` the human-readable short code. -/
structure Alert where
  id : String
  alert_id : String
  customer_id : String
  typology : String
  risk_score : Int
  status : String
  title : String
  description : Option String
  triggered_date : String
  assigned_analyst : Option String
  resolution : Option String
  closed_at : Option String
  total_flagged_amount : Option ℚ
  flagged_transaction_count : Nat
deriving DecidableEq

/-- Embedding of the `Customer` model (`api/models/customer.py`), restricted to
the fields the alert core reads. `risk_category` is a non-nullable column. -/
structure Customer where
  id : String
  risk_category : String
deriving DecidableEq

/-- Embedding of the `AuditTrailEntry` model as written by
`AuditTrailRepository.create` (`api/repositories/investigation.py`). -/
structure AuditEntry where
  alert_id : String
  action : String
  performed_by : String
  details : Option String
deriving DecidableEq

/-- Python truthiness of an `str | None` value: `None` and `""` are falsy. -/
def pyTruthy : Option String → Bool
  | none => false
  | some s => !(s == "")

/-- `AlertRepository.get_by_id`: `SELECT ... WHERE Alert.id == alert_id`. -/
def get_by_id (store : List Alert) (alert_uuid : String) : Option Alert :=
  store.find? (fun a => a.id == alert_uuid)

/-- The row mutation performed by `AlertRepository.update_status` on a found
alert: set `status`, set `assigned_analyst` unconditionally, and set
`resolution`/`closed_at` only when the new status is `"Closed"` and the
supplied resolution is truthy (`if status == "Closed" and resolution:`). -/
def applyUpdate (alert : Alert) (status analyst : String)
    (resolution : Option String) (now : String) : Alert :=
  let a1 := { alert with status := status, assigned_analyst := some analyst }
  if status == "Closed" && pyTruthy resolution then
    { a1 with resolution := resolution, closed_at := some now }
  else
    a1

/-- `AlertRepository.update_status`: look the alert up by UUID; if absent
return `None` and leave the store unchanged; otherwise mutate the row in
place (modelled as replacing the row with the matching primary key) and
return the updated entity. `now` stands for `datetime.now(timezone.utc)`. -/
def update_status (store : List Alert) (alert_uuid status analyst : String)
    (resolution : Option String) (now : String) : Option Alert × List Alert :=
  match get_by_id store alert_uuid with
  | none => (none, store)
  | some alert =>
    let updated := applyUpdate alert status analyst resolution now
    (some updated, store.map (fun b => if b.id == alert_uuid then updated else b))

/-- `AlertRepository.bulk_update_status`: iterate the id list strictly
sequentially, calling `update_status` per id; count successes, collect
failed ids in input order, never short-circuit. -/
def bulk_update_status (store : List Alert) (alert_ids : List String)
    (status analyst : String) (resolution : Option String) (now : String) :
    (Nat × List String) × List Alert :=
  match alert_ids with
  | [] => ((0, []), store)
  | alert_id :: rest =>
    let step := update_status store alert_id status analyst resolution now
    let tail := bulk_update_status step.2 rest status analyst resolution now
    match step.1 with
    | some _ => ((tail.1.1 + 1, tail.1.2), tail.2)
    | none => ((tail.1.1, alert_id :: tail.1.2), tail.2)

/-- Detail text written by the bulk-close route for each audit entry. -/
def bulkCloseDetails (rationale resolution : String) : String :=
  "Status changed to 'Closed' via bulk close. Rationale: " ++ rationale ++
    ". Resolution: " ++ resolution

/-- The audit entry created per successfully closed alert by the
`bulk_close_alerts` route. -/
def bulkCloseEntry (alert_id analyst rationale resolution : String) : AuditEntry :=
  { alert_id := alert_id, action := "bulk_close", performed_by := analyst
  , details := some (bulkCloseDetails rationale resolution) }

/-- Route `POST /api/alerts/bulk-close` (`api/routes/alerts.py`,
`bulk_close_alerts`): run the bulk update with status `"Closed"`, then append
one audit entry for every id of the request that is not among the failed
ids. `resolution` is a required string field of `BulkCloseRequest`. -/
def bulk_close_alerts (store : List Alert) (audit : List AuditEntry)
    (alert_ids : List String) (analyst rationale resolution : String)
    (now : String) : (Nat × List String) × List Alert × List AuditEntry :=
  let r := bulk_update_status store alert_ids "Closed" analyst (some resolution) now
  let successfully_closed := alert_ids.filter (fun i => !(r.1.2.contains i))
  let entries := successfully_closed.map
    (fun i => bulkCloseEntry i analyst rationale resolution)
  (r.1, r.2, audit ++ entries)

/-- Detail text written by the single status-update route: the resolution
part is appended only when `body.resolution` is truthy. -/
def statusUpdateDetails (status rationale : String) (resolution : Option String) :
    String :=
  let base := "Status changed to '" ++ status ++ "'. Rationale: " ++ rationale
  if pyTruthy resolution then
    base ++ ". Resolution: " ++ (resolution.getD "")
  else
    base

/-- Route `PATCH /api/alerts/{alert_uuid}/status` (`update_alert_status`):
call `update_status`; on `None` raise 404 with nothing written; otherwise
append one `"status_update"` audit entry. -/
def update_alert_status (store : List Alert) (audit : List AuditEntry)
    (alert_uuid status analyst rationale : String) (resolution : Option String)
    (now : String) : Option Alert × List Alert × List AuditEntry :=
  let r := update_status store alert_uuid status analyst resolution now
  match r.1 with
  | none => (none, r.2, audit)
  | some a =>
    (some a, r.2, audit ++
      [{ alert_id := alert_uuid, action := "status_update", performed_by := analyst
       , details := some (statusUpdateDetails status rationale resolution) }])

/-! ### AlertQueryEngine: `AlertRepository.get_all` -/

/-- Python `str.split(sep)` restricted to a single-character separator,
on the underlying character list. -/
def pySplit (sep : Char) : List Char → List (List Char)
  | [] => [[]]
  | c :: rest =>
    if c = sep then
      [] :: pySplit sep rest
    else
      match pySplit sep rest with
      | [] => [[c]]
      | p :: ps => (c :: p) :: ps

/-- Whitespace characters removed by Python `str.strip()`. -/
def pySpace (c : Char) : Bool :=
  c = ' ' || c = '\t' || c = '\n' || c = '\r'

/-- Python `str.strip()`: drop leading and trailing whitespace. -/
def pyStrip (l : List Char) : List Char :=
  (((l.dropWhile pySpace).reverse).dropWhile pySpace).reverse

/-- `b` occurs as a contiguous run at the start of the second list. -/
def startsWithChars : List Char → List Char → Bool
  | [], _ => true
  | _ :: _, [] => false
  | a :: as_, b :: bs => a == b && startsWithChars as_ bs

/-- `needle` occurs as a contiguous run somewhere in `hay` (SQL `LIKE '%x%'`). -/
def containsChars (needle : List Char) : List Char → Bool
  | [] => needle.isEmpty
  | c :: rest => startsWithChars needle (c :: rest) || containsChars needle rest

/-- SQL `column ILIKE '%pat%'` on a nullable column: `NULL` never matches;
otherwise a case-insensitive substring test. -/
def ilikeSub (field : Option String) (pat : String) : Bool :=
  match field with
  | none => false
  | some f => containsChars pat.toLower.data f.toLower.data

/-- The optional filters of `AlertRepository.get_all`. -/
structure AlertFilters where
  typology : Option String := none
  status : Option String := none
  risk_min : Option Int := none
  risk_max : Option Int := none
  search : Option String := none
  resolution : Option String := none
  assigned_analyst : Option String := none

/-- The status filter of `get_all`: guarded by Python truthiness; a value
containing a comma is split, each part stripped, and matched with SQL `IN`;
otherwise an exact equality match. -/
def statusFilterPred (status : Option String) (a : Alert) : Bool :=
  match status with
  | none => true
  | some s =>
    if s == "" then true
    else if s.data.contains ',' then
      ((pySplit ',' s.data).map pyStrip).contains a.status.data
    else
      a.status == s

/-- The status labels named by a comma-separated filter value, as strings:
the value split on commas with each part stripped — the `IN` list built by
`get_all` (`[s.strip() for s in status.split(",")]`). -/
def statusList (s : String) : List String :=
  ((pySplit ',' s.data).map pyStrip).map (fun l => String.mk l)

/-- The assigned-analyst filter: truthiness-guarded; the sentinel
`"__unassigned__"` selects `assigned_analyst IS NULL`. -/
def analystFilterPred (assigned_analyst : Option String) (a : Alert) : Bool :=
  match assigned_analyst with
  | none => true
  | some v =>
    if v == "" then true
    else if v == "__unassigned__" then a.assigned_analyst.isNone
    else a.assigned_analyst == some v

/-- Conjunction of all `WHERE` clauses accumulated by `get_all` (the guards
mirror the source: truthiness for string filters, `is not None` for the
numeric bounds). -/
def matchesFilters (f : AlertFilters) (a : Alert) : Bool :=
  (match f.typology with
   | none => true
   | some t => if t == "" then true else a.typology == t) &&
  statusFilterPred f.status a &&
  (match f.risk_min with
   | none => true
   | some m => m ≤ a.risk_score) &&
  (match f.risk_max with
   | none => true
   | some m => a.risk_score ≤ m) &&
  (match f.resolution with
   | none => true
   | some r => if r == "" then true else a.resolution == some r) &&
  analystFilterPred f.assigned_analyst a &&
  (match f.search with
   | none => true
   | some s =>
     if s == "" then true
     else ilikeSub (some a.title) s || ilikeSub (some a.alert_id) s ||
       ilikeSub a.description s)

/-- Ascending comparison for one sort column; `getattr(Alert, sort_by,
Alert.triggered_date)` makes any unrecognized column name fall back to
`triggered_date`. `NULL` values sort first, as in SQLite ascending order. -/
def columnLe (sort_by : String) (a b : Alert) : Bool :=
  let optStrLe : Option String → Option String → Bool := fun x y =>
    match x, y with
    | none, _ => true
    | some _, none => false
    | some u, some v => decide (u ≤ v)
  match sort_by with
  | "id" => decide (a.id ≤ b.id)
  | "alert_id" => decide (a.alert_id ≤ b.alert_id)
  | "customer_id" => decide (a.customer_id ≤ b.customer_id)
  | "typology" => decide (a.typology ≤ b.typology)
  | "risk_score" => decide (a.risk_score ≤ b.risk_score)
  | "status" => decide (a.status ≤ b.status)
  | "title" => decide (a.title ≤ b.title)
  | "description" => optStrLe a.description b.description
  | "assigned_analyst" => optStrLe a.assigned_analyst b.assigned_analyst
  | "resolution" => optStrLe a.resolution b.resolution
  | "closed_at" => optStrLe a.closed_at b.closed_at
  | "total_flagged_amount" =>
    match a.total_flagged_amount, b.total_flagged_amount with
    | none, _ => true
    | some _, none => false
    | some u, some v => decide (u ≤ v)
  | "flagged_transaction_count" =>
    decide (a.flagged_transaction_count ≤ b.flagged_transaction_count)
  | _ => decide (a.triggered_date ≤ b.triggered_date)

/-- `ORDER BY`: ascending when `sort_order == "asc"`, else descending. -/
def sortAlerts (sort_by sort_order : String) (l : List Alert) : List Alert :=
  if sort_order == "asc" then
    l.mergeSort (columnLe sort_by)
  else
    l.mergeSort (fun a b => columnLe sort_by b a)

/-- `AlertRepository.get_all`: filter, count the filtered set (the count
subquery runs before `ORDER BY`/`OFFSET`/`LIMIT`), sort, then apply the
offset/limit window. Returns `(alerts, total_count)`. -/
def get_all (store : List Alert) (f : AlertFilters) (sort_by sort_order : String)
    (offset limit : Nat) : List Alert × Nat :=
  let filtered := store.filter (matchesFilters f)
  let total_count := filtered.length
  let sorted := sortAlerts sort_by sort_order filtered
  (((sorted.drop offset).take limit), total_count)

/-! ### StatsAggregator: `AlertRepository.get_stats` -/

/-- The open statuses of `get_stats`. -/
def open_statuses : List String := ["New", "In Progress", "Review", "Escalated"]

/-- The five counters returned by `get_stats`. -/
structure AlertStats where
  total_alerts : Nat
  open_alerts : Nat
  high_risk_count : Nat
  closed_count : Nat
  unassigned_count : Nat
deriving DecidableEq

/-- `AlertRepository.get_stats`: five `COUNT` queries over the store. -/
def get_stats (store : List Alert) : AlertStats :=
  { total_alerts := store.length
  , open_alerts := (store.filter (fun a => open_statuses.contains a.status)).length
  , high_risk_count := (store.filter (fun a => decide (70 ≤ a.risk_score))).length
  , closed_count := (store.filter (fun a => a.status == "Closed")).length
  , unassigned_count := (store.filter (fun a =>
      a.assigned_analyst.isNone && open_statuses.contains a.status)).length }

/-! ### SimilarityEngine: `api/services/similar_cases.py` -/

def TYPOLOGY_WEIGHT : Nat := 40
def RISK_SCORE_WEIGHT : Nat := 25
def FLAGGED_AMOUNT_WEIGHT : Nat := 20
def RISK_CATEGORY_WEIGHT : Nat := 15

def RISK_SCORE_TOLERANCE : Nat := 15

/-- Source constant `FLAGGED_AMOUNT_TOLERANCE_RATIO = 0.50`. -/
def FLAGGED_AMOUNT_TOLERANCE : ℚ := 1 / 2

def MAX_RESULTS : Nat := 5

/-- One returned similar-case record (the dict built per candidate). -/
structure SimilarCase where
  id : String
  alert_id : String
  title : String
  typology : String
  risk_score : Int
  status : String
  resolution : Option String
  similarity_score : Nat
  matching_factors : List String
deriving DecidableEq

/-- Rendering of Python's `"{:,.0f}"` number formatting; the claims never
depend on the digit grouping, so it is abstracted as `toString`. -/
def fmtAmount (q : ℚ) : String := toString q

/-- Matching-factor text of rule 1 (typology). -/
def typologyFactor (candidate : Alert) : String :=
  "Same typology: " ++ candidate.typology

/-- Matching-factor text of rule 2 (risk-score proximity). -/
def riskFactor (candidate target : Alert) : String :=
  "Risk score within 15 points (" ++ toString candidate.risk_score ++ " vs " ++
    toString target.risk_score ++ ")"

/-- Matching-factor text of rule 3 (flagged-amount proximity). -/
def amountFactor (candidateAmt targetAmt : ℚ) : String :=
  "Flagged amount within 50% (₹" ++ fmtAmount candidateAmt ++ " vs ₹" ++
    fmtAmount targetAmt ++ ")"

/-- Matching-factor text of rule 4 (customer risk category). -/
def categoryFactor (risk_category : String) : String :=
  "Same risk category: " ++ risk_category

/-- The per-candidate scoring loop body of `find_similar_cases`: the four
rules evaluated in order, each adding its weight and appending its
matching-factor string when it fires. `target_risk_category` is the category
resolved for the target's customer; the candidate's category is read through
the `Alert.customer` relationship (`None` when the customer is absent). -/
def scoreCandidate (target : Alert) (target_risk_category : Option String)
    (customers : List Customer) (candidate : Alert) : Nat × List String :=
  let acc0 : Nat × List String := (0, [])
  -- 1. Same typology (+40)
  let acc1 :=
    if candidate.typology = target.typology then
      (acc0.1 + TYPOLOGY_WEIGHT, acc0.2 ++ [typologyFactor candidate])
    else acc0
  -- 2. Risk score within +/-15 (+25)
  let risk_diff := (candidate.risk_score - target.risk_score).natAbs
  let acc2 :=
    if risk_diff ≤ RISK_SCORE_TOLERANCE then
      (acc1.1 + RISK_SCORE_WEIGHT, acc1.2 ++ [riskFactor candidate target])
    else acc1
  -- 3. Similar flagged amount within 50% (+20)
  let acc3 :=
    match target.total_flagged_amount, candidate.total_flagged_amount with
    | some t, some c =>
      if 0 < t then
        if |c - t| ≤ t * FLAGGED_AMOUNT_TOLERANCE then
          (acc2.1 + FLAGGED_AMOUNT_WEIGHT, acc2.2 ++ [amountFactor c t])
        else acc2
      else acc2
    | _, _ => acc2
  -- 4. Same customer risk category (+15)
  let candidate_risk_category :=
    (customers.find? (fun cu => cu.id == candidate.customer_id)).map
      (fun cu => cu.risk_category)
  match target_risk_category, candidate_risk_category with
  | some t, some c =>
    if c = t then
      (acc3.1 + RISK_CATEGORY_WEIGHT, acc3.2 ++ [categoryFactor c])
    else acc3
  | _, _ => acc3

/-- The record appended to `scored_cases` for a candidate with score `s`
and matching factors `mf`. -/
def mkSimilarCase (candidate : Alert) (s : Nat) (mf : List String) : SimilarCase :=
  { id := candidate.id, alert_id := candidate.alert_id, title := candidate.title
  , typology := candidate.typology, risk_score := candidate.risk_score
  , status := candidate.status, resolution := candidate.resolution
  , similarity_score := s, matching_factors := mf }

/-- `find_similar_cases`: resolve the target (raising `ValueError`, modelled
as `none`, when absent), resolve the target customer's risk category, score
every other alert, keep only candidates with a positive score (the loop
appends them in scan order), sort by score descending (Python's stable
sort), and return the first `MAX_RESULTS`. -/
def find_similar_cases (alerts : List Alert) (customers : List Customer)
    (alert_id : String) : Option (List SimilarCase) :=
  match alerts.find? (fun a => a.id == alert_id) with
  | none => none
  | some target =>
    let target_customer := customers.find? (fun c => c.id == target.customer_id)
    let target_risk_category := target_customer.map (fun c => c.risk_category)
    let candidates := alerts.filter (fun a => !(a.id == alert_id))
    let scored_cases := candidates.filterMap (fun c =>
      let r := scoreCandidate target target_risk_category customers c
      if 0 < r.1 then some (mkSimilarCase c r.1 r.2) else none)
    some ((scored_cases.mergeSort
      (fun x y => decide (y.similarity_score ≤ x.similarity_score))).take MAX_RESULTS)

/-! ### Invariant predicates and concrete example data -/

/-- The §3 data-model invariant on one alert: `resolution` is non-null only
in conjunction with `status == Closed`. -/
def alertResInvariant (a : Alert) : Bool :=
  a.resolution == none || a.status == "Closed"

/-- An id is present in the store (determined by the stored primary keys). -/
def idPresent (store : List Alert) (j : String) : Bool :=
  (store.map (fun a => a.id)).contains j

/-- A resolution value was supplied: a non-empty string (supplying `None` or
the empty string is "no resolution" under Python truthiness, see the C10
edge case). -/
def suppliedRes : Option String → Prop
  | none => False
  | some s => s ≠ ""

/-- A baseline alert used by the concrete examples. -/
def baseAlert : Alert :=
  { id := "u0", alert_id := "A0", customer_id := "c0", typology := "Structuring"
  , risk_score := 80, status := "New", title := "Title", description := none
  , triggered_date := "2024-01-01", assigned_analyst := none, resolution := none
  , closed_at := none, total_flagged_amount := none
  , flagged_transaction_count := 0 }

/-- A closed alert carrying a resolution (satisfies the §3 invariant). -/
def c1Alert : Alert :=
  { baseAlert with
    id := "u1"
    status := "Closed"
    assigned_analyst := some "ana"
    resolution := some "SAR Filed"
    closed_at := some "2024-02-01" }

def c1Store : List Alert := [c1Alert]

/-- An open, unresolved alert used by the lifecycle witnesses. -/
def w2Alert : Alert := { baseAlert with id := "u2" }

def w2Store : List Alert := [w2Alert]

/-- The six-alert store of the §8 `getStats` example: statuses
{New, InProgress, Review, Closed, Escalated, Closed}, analysts
{null, "a", null, "a", null, "a"}, risk scores {80, 70, 60, 90, 55, 75}. -/
def c6Store : List Alert :=
  [ { baseAlert with
      id := "u1"
      status := "New"
      assigned_analyst := none
      risk_score := 80 }
  , { baseAlert with
      id := "u2"
      status := "In Progress"
      assigned_analyst := some "a"
      risk_score := 70 }
  , { baseAlert with
      id := "u3"
      status := "Review"
      assigned_analyst := none
      risk_score := 60 }
  , { baseAlert with
      id := "u4"
      status := "Closed"
      assigned_analyst := some "a"
      risk_score := 90 }
  , { baseAlert with
      id := "u5"
      status := "Escalated"
      assigned_analyst := none
      risk_score := 55 }
  , { baseAlert with
      id := "u6"
      status := "Closed"
      assigned_analyst := some "a"
      risk_score := 75 } ]

/-- An empty filter set (all filters off) used by the query witnesses. -/
def w8Filters : AlertFilters := {}

/-- Target alert of the similarity witnesses. -/
def w4Target : Alert :=
  { baseAlert with id := "t4", customer_id := "cust1" }

/-- Candidate alert sharing the target's typology and risk band. -/
def w4Cand : Alert :=
  { baseAlert with
    id := "d4"
    alert_id := "A4"
    customer_id := "cust2"
    risk_score := 90 }

/-- Target alert of the full-match scoring witness (rule 3 needs amounts). -/
def w9Target : Alert :=
  { baseAlert with
    id := "t9"
    customer_id := "cust1"
    total_flagged_amount := some 1000 }

/-- Candidate matched by all four rules against `w9Target`. -/
def w9Cand : Alert :=
  { baseAlert with
    id := "d9"
    alert_id := "A9"
    customer_id := "cust2"
    risk_score := 90
    total_flagged_amount := some 1200 }

def w4Alerts : List Alert := [w4Target, w4Cand]

/-- The record `findSimilarCases` returns for `w4Cand` against `w4Target`:
rules 1, 2 and 4 fire (40 + 25 + 15 = 80). -/
def w4Case : SimilarCase :=
  { id := "d4", alert_id := "A4", title := "Title", typology := "Structuring"
  , risk_score := 90, status := "New", resolution := none
  , similarity_score := 80
  , matching_factors := ["Same typology: Structuring",
      "Risk score within 15 points (90 vs 80)", "Same risk category: High"] }

def w4Customers : List Customer :=
  [ { id := "cust1", risk_category := "High" }
  , { id := "cust2", risk_category := "High" } ]

/-! ### Helper lemmas -/

theorem pyTruthy_iff (r : Option String) :
    pyTruthy r = true ↔ ∃ s, r = some s ∧ s ≠ "" := by
  cases r with
  | none => simp [pyTruthy]
  | some s => simp [pyTruthy]

theorem data_beq (s t : String) : (s.data == t.data) = (s == t) := by
  rcases eq_or_ne s t with h | h
  · subst h; simp
  · have hd : s.data ≠ t.data := fun hd => h (String.ext hd)
    simp [h, hd]

theorem applyUpdate_id (a : Alert) (st an : String) (r : Option String)
    (n : String) : (applyUpdate a st an r n).id = a.id := by
  unfold applyUpdate
  by_cases h : (st == "Closed" && pyTruthy r) = true
  · simp [h]
  · simp [h]

theorem applyUpdate_status (a : Alert) (st an : String) (r : Option String)
    (n : String) : (applyUpdate a st an r n).status = st := by
  unfold applyUpdate
  by_cases h : (st == "Closed" && pyTruthy r) = true
  · simp [h]
  · simp [h]

theorem applyUpdate_resolution_of_not_closed (a : Alert) (st an : String)
    (r : Option String) (n : String) (h : st ≠ "Closed") :
    (applyUpdate a st an r n).resolution = a.resolution := by
  unfold applyUpdate
  have hb : (st == "Closed") = false := by simp [h]
  simp [hb]

theorem applyUpdate_idem (a : Alert) (st an : String) (r : Option String)
    (n : String) :
    applyUpdate (applyUpdate a st an r n) st an r n = applyUpdate a st an r n := by
  unfold applyUpdate
  by_cases h : (st == "Closed" && pyTruthy r) = true
  · simp [h]
  · simp [h]

theorem update_status_fst (store : List Alert) (u st an : String)
    (r : Option String) (n : String) :
    (update_status store u st an r n).1 =
      (get_by_id store u).map (fun a => applyUpdate a st an r n) := by
  unfold update_status
  cases get_by_id store u <;> rfl

theorem update_status_map_id (store : List Alert) (u st an : String)
    (r : Option String) (n : String) :
    ((update_status store u st an r n).2).map (fun a => a.id) =
      store.map (fun a => a.id) := by
  unfold update_status
  cases hfind : get_by_id store u with
  | none => rfl
  | some alert =>
    have halert : alert.id = u := by
      have hp := List.find?_some hfind
      exact beq_iff_eq.mp hp
    simp only [List.map_map]
    apply List.map_congr_left
    intro b _
    by_cases hb : b.id = u
    · simp [hb, applyUpdate_id, halert]
    · simp [hb]

theorem update_status_length (store : List Alert) (u st an : String)
    (r : Option String) (n : String) :
    ((update_status store u st an r n).2).length = store.length := by
  have h := congrArg List.length (update_status_map_id store u st an r n)
  simpa using h

theorem get_by_id_isSome (store : List Alert) (j : String) :
    (get_by_id store j).isSome = (store.map (fun a => a.id)).contains j := by
  induction store with
  | nil => rfl
  | cons a rest ih =>
    by_cases h : a.id = j
    · simp [get_by_id, List.find?_cons, List.contains_cons, h]
    · have h2 : ¬(j = a.id) := fun hh => h hh.symm
      have hb : (a.id == j) = false := by simp [h]
      have hb2 : (j == a.id) = false := by simp [h2]
      simp only [get_by_id, List.find?_cons, List.map_cons, List.contains_cons, hb,
        hb2, Bool.false_or]
      simpa [get_by_id] using ih

theorem update_status_idPresent (store : List Alert) (u st an : String)
    (r : Option String) (n : String) (j : String) :
    idPresent (update_status store u st an r n).2 j = idPresent store j := by
  unfold idPresent
  rw [update_status_map_id]

theorem bulk_snd_cons (store : List Alert) (i : String) (rest : List String)
    (st an : String) (r : Option String) (n : String) :
    (bulk_update_status store (i :: rest) st an r n).2 =
      (bulk_update_status (update_status store i st an r n).2 rest st an r n).2 := by
  rcases h : (update_status store i st an r n).1 with _ | a <;>
    simp only [bulk_update_status, h]

theorem bulk_map_id (ids : List String) (st an : String) (r : Option String)
    (n : String) : ∀ store : List Alert,
    ((bulk_update_status store ids st an r n).2).map (fun a => a.id) =
      store.map (fun a => a.id) := by
  induction ids with
  | nil => intro store; rfl
  | cons i rest ih =>
    intro store
    rw [bulk_snd_cons, ih, update_status_map_id]

theorem bulk_counts (ids : List String) (st an : String) (r : Option String)
    (n : String) : ∀ store : List Alert,
    (bulk_update_status store ids st an r n).1.1 =
      (ids.filter (fun i => idPresent store i)).length ∧
    (bulk_update_status store ids st an r n).1.2 =
      ids.filter (fun i => !(idPresent store i)) := by
  induction ids with
  | nil => intro store; exact ⟨rfl, rfl⟩
  | cons i rest ih =>
    intro store
    have hpres : ∀ j, idPresent (update_status store i st an r n).2 j =
        idPresent store j := update_status_idPresent store i st an r n
    have hfre : rest.filter (fun j => idPresent (update_status store i st an r n).2 j)
        = rest.filter (fun j => idPresent store j) :=
      List.filter_congr (fun j _ => hpres j)
    have hfre2 : rest.filter (fun j => !(idPresent (update_status store i st an r n).2 j))
        = rest.filter (fun j => !(idPresent store j)) :=
      List.filter_congr (fun j _ => by rw [hpres j])
    have hstep : (update_status store i st an r n).1.isSome = idPresent store i := by
      rw [update_status_fst]
      unfold idPresent
      rw [← get_by_id_isSome store i]
      cases get_by_id store i <;> rfl
    have ihs := ih (update_status store i st an r n).2
    by_cases hp : idPresent store i = true
    · have hsome : (update_status store i st an r n).1.isSome = true := by
        rw [hstep]; exact hp
      obtain ⟨a, ha⟩ := Option.isSome_iff_exists.mp hsome
      constructor
      · simp only [bulk_update_status, ha, List.filter_cons, hp, if_pos trivial]
        rw [ihs.1, hfre]
        simp
      · simp only [bulk_update_status, ha, List.filter_cons, hp]
        rw [ihs.2, hfre2]
        simp [hp]
    · have hnone : (update_status store i st an r n).1 = none := by
        have : (update_status store i st an r n).1.isSome = false := by
          rw [hstep]; simpa using hp
        exact Option.not_isSome_iff_eq_none.mp (by simp [this])
      constructor
      · simp only [bulk_update_status, hnone, List.filter_cons]
        rw [ihs.1, hfre]
        simp [hp]
      · simp only [bulk_update_status, hnone, List.filter_cons]
        rw [ihs.2, hfre2]
        simp [hp]

theorem find?_id_unique (u : String) : ∀ store : List Alert,
    (store.map (fun a => a.id)).Nodup → ∀ b ∈ store, b.id = u →
    store.find? (fun x => x.id == u) = some b := by
  intro store
  induction store with
  | nil => intro _ b hb; exact absurd hb (List.not_mem_nil b)
  | cons a rest ih =>
    intro hnd b hb hbid
    have hnd' := List.nodup_cons.mp
      (show (a.id :: rest.map (fun x => x.id)).Nodup from hnd)
    rcases List.mem_cons.mp hb with rfl | hbr
    · have hba : (b.id == u) = true := beq_iff_eq.mpr hbid
      simp [List.find?_cons, hba]
    · have hna : a.id ≠ u := by
        intro ha
        exact hnd'.1 (by
          rw [ha, ← hbid]
          exact List.mem_map.mpr ⟨b, hbr, rfl⟩)
      have hfa : (a.id == u) = false := by simp [hna]
      simp only [List.find?_cons, hfa]
      exact ih hnd'.2 b hbr hbid

theorem get?_mem {l : List Alert} {i : Nat} {b : Alert} (h : l.get? i = some b) :
    b ∈ l := by
  obtain ⟨hlt, hget⟩ := List.get?_eq_some.mp h
  rw [← hget]
  exact List.get_mem l i hlt

theorem update_status_get? (store : List Alert) (u st an : String)
    (r : Option String) (n : String)
    (hnd : (store.map (fun a => a.id)).Nodup) (i : Nat) (b : Alert)
    (hb : store.get? i = some b) :
    ((update_status store u st an r n).2).get? i = some b ∨
    ((update_status store u st an r n).2).get? i =
      some (applyUpdate b st an r n) := by
  rcases hfind : get_by_id store u with _ | alert
  · left
    simpa [update_status, hfind] using hb
  · have hmap : ((update_status store u st an r n).2).get? i =
        (store.get? i).map
          (fun x => if x.id == u then applyUpdate alert st an r n else x) := by
      simp [update_status, hfind, List.get?_map]
    by_cases hbu : b.id = u
    · have hba : alert = b := by
        have h2 := find?_id_unique u store hnd b (get?_mem hb) hbu
        have h3 : some alert = some b := by rw [← hfind]; exact h2
        exact Option.some.injEq _ _ ▸ h3
      right
      rw [hmap, hb]
      simp [hbu, hba]
    · left
      rw [hmap, hb]
      simp [hbu]

theorem bulk_get? (ids : List String) (st an : String) (r : Option String)
    (n : String) : ∀ store : List Alert,
    (store.map (fun a => a.id)).Nodup →
    ∀ (i : Nat) (b : Alert), store.get? i = some b →
    ((bulk_update_status store ids st an r n).2).get? i = some b ∨
    ((bulk_update_status store ids st an r n).2).get? i =
      some (applyUpdate b st an r n) := by
  induction ids with
  | nil => intro store _ i b hb; left; exact hb
  | cons j rest ih =>
    intro store hnd i b hb
    have hnd1 : (((update_status store j st an r n).2).map (fun a => a.id)).Nodup := by
      rw [update_status_map_id]; exact hnd
    rw [bulk_snd_cons]
    rcases update_status_get? store j st an r n hnd i b hb with h1 | h1
    · exact ih (update_status store j st an r n).2 hnd1 i b h1
    · rcases ih (update_status store j st an r n).2 hnd1 i _ h1 with h2 | h2
      · right; exact h2
      · right; rw [h2, applyUpdate_idem]

theorem guard_iff (st : String) (r : Option String) :
    (st == "Closed" && pyTruthy r) = true ↔ st = "Closed" ∧ suppliedRes r := by
  cases r with
  | none => simp [pyTruthy, suppliedRes]
  | some s => simp [pyTruthy, suppliedRes]

/-! ### Claim theorems -/

/-- C7: for every alert id not present in the store, `updateStatus` signals
NotFound and on that error path the store is completely unchanged — no alert
is mutated and no audit-trail entry is written (the route raises 404 before
its audit write). -/
theorem c7_update_status_notfound (store : List Alert) (audit : List AuditEntry)
    (u st an rat : String) (r : Option String) (n : String)
    (h : get_by_id store u = none) :
    update_status store u st an r n = (none, store) ∧
    update_alert_status store audit u st an rat r n = (none, store, audit) := by
  have h1 : update_status store u st an r n = (none, store) := by
    simp [update_status, h]
  exact ⟨h1, by simp [update_alert_status, h1]⟩

/-- Witness for C7 at a concrete store and missing id. -/
theorem c7_witness :
    get_by_id w2Store "missing" = none ∧
    update_status w2Store "missing" "Closed" "ana" none "t" = (none, w2Store) ∧
    update_alert_status w2Store [] "missing" "Closed" "ana" "done" none "t" =
      (none, w2Store, []) := by
  have h : get_by_id w2Store "missing" = none := by decide
  have h2 := c7_update_status_notfound w2Store [] "missing" "Closed" "ana" "done"
    none "t" h
  exact ⟨h, h2.1, h2.2⟩

/-- C2: postcondition and frame of a successful `updateStatus`: the status
becomes the new status, the analyst of record is reassigned unconditionally,
`resolution` and `closedAt` are both set (the latter to the current time)
exactly when the new status is Closed and a resolution value was supplied,
they are left untouched otherwise, and every other field of the alert is
unchanged. -/
theorem c2_update_status_post (store : List Alert) (u st an : String)
    (r : Option String) (n : String) (a : Alert)
    (h : get_by_id store u = some a) :
    ∃ a', (update_status store u st an r n).1 = some a' ∧
      a'.status = st ∧
      a'.assigned_analyst = some an ∧
      (st = "Closed" ∧ suppliedRes r → a'.resolution = r ∧ a'.closed_at = some n) ∧
      (¬(st = "Closed" ∧ suppliedRes r) →
        a'.resolution = a.resolution ∧ a'.closed_at = a.closed_at) ∧
      a'.id = a.id ∧ a'.alert_id = a.alert_id ∧ a'.customer_id = a.customer_id ∧
      a'.typology = a.typology ∧ a'.risk_score = a.risk_score ∧
      a'.title = a.title ∧ a'.description = a.description ∧
      a'.triggered_date = a.triggered_date ∧
      a'.total_flagged_amount = a.total_flagged_amount ∧
      a'.flagged_transaction_count = a.flagged_transaction_count := by
  have hfst : (update_status store u st an r n).1 = some (applyUpdate a st an r n) := by
    simp [update_status, h]
  refine ⟨applyUpdate a st an r n, hfst, ?_⟩
  by_cases hg : (st == "Closed" && pyTruthy r) = true
  · have hp : st = "Closed" ∧ suppliedRes r := (guard_iff st r).mp hg
    unfold applyUpdate
    rw [if_pos hg]
    exact ⟨rfl, rfl, fun _ => ⟨rfl, rfl⟩, fun hn => absurd hp hn, rfl, rfl, rfl,
      rfl, rfl, rfl, rfl, rfl, rfl, rfl⟩
  · have hp : ¬(st = "Closed" ∧ suppliedRes r) := fun hc => hg ((guard_iff st r).mpr hc)
    unfold applyUpdate
    rw [if_neg hg]
    exact ⟨rfl, rfl, fun hc => absurd hc hp, fun _ => ⟨rfl, rfl⟩, rfl, rfl, rfl,
      rfl, rfl, rfl, rfl, rfl, rfl, rfl⟩

/-- Witness for C2: closing the concrete open alert `w2Alert` with the
resolution "No Suspicion" yields a Closed alert carrying that resolution
and the supplied close time. -/
theorem c2_witness :
    get_by_id w2Store "u2" = some w2Alert ∧
    ∃ a', (update_status w2Store "u2" "Closed" "sarah" (some "No Suspicion") "t9").1
        = some a' ∧
      a'.status = "Closed" ∧ a'.assigned_analyst = some "sarah" ∧
      a'.resolution = some "No Suspicion" ∧ a'.closed_at = some "t9" := by
  have h : get_by_id w2Store "u2" = some w2Alert := by decide
  obtain ⟨a', hfst, hst, han, himp, _⟩ :=
    c2_update_status_post w2Store "u2" "Closed" "sarah" (some "No Suspicion")
      "t9" w2Alert h
  have hres := himp ⟨rfl, show ("No Suspicion" : String) ≠ "" from by decide⟩
  exact ⟨h, a', hfst, hst, han, hres.1, hres.2⟩

/-- C10: closing an alert while supplying the empty-string resolution behaves
as if no resolution was supplied — the status becomes Closed and the analyst
is reassigned, but `resolution` and `closedAt` are left unchanged; an alert
whose resolution was null hence ends up Closed with null `resolution` and
`closedAt`. -/
theorem c10_empty_string_resolution (store : List Alert) (u an n : String)
    (a : Alert) (h : get_by_id store u = some a) :
    ∃ a', (update_status store u "Closed" an (some "") n).1 = some a' ∧
      a'.status = "Closed" ∧ a'.assigned_analyst = some an ∧
      a'.resolution = a.resolution ∧ a'.closed_at = a.closed_at := by
  have hfst : (update_status store u "Closed" an (some "") n).1 =
      some (applyUpdate a "Closed" an (some "") n) := by
    simp [update_status, h]
  have hg : ¬((("Closed" : String) == "Closed" && pyTruthy (some "")) = true) := by
    decide
  refine ⟨applyUpdate a "Closed" an (some "") n, hfst, ?_⟩
  unfold applyUpdate
  rw [if_neg hg]
  exact ⟨rfl, rfl, rfl, rfl⟩

/-- Witness for C10: the concrete open alert `w2Alert` (null resolution,
null closedAt) closed with resolution `""` ends up Closed with both fields
still null. -/
theorem c10_witness :
    ∃ a', (update_status w2Store "u2" "Closed" "sarah" (some "") "t9").1
        = some a' ∧
      a'.status = "Closed" ∧ a'.assigned_analyst = some "sarah" ∧
      a'.resolution = none ∧ a'.closed_at = none := by
  obtain ⟨a', hfst, hst, han, hres, hcl⟩ :=
    c10_empty_string_resolution w2Store "u2" "sarah" "t9" w2Alert (by decide)
  exact ⟨a', hfst, hst, han, by rw [hres]; rfl, by rw [hcl]; rfl⟩

/-- C1 counterexample: from the concrete one-alert store `c1Store`, which
satisfies the §3 invariant (its alert is Closed with a resolution), the
transition `updateStatus(u1, New, bob)` — reopening the alert — produces a
store violating the invariant: the reopened alert keeps its non-null
resolution while its status is no longer Closed. -/
theorem c1_counterexample :
    c1Store.all alertResInvariant = true ∧
    ((update_status c1Store "u1" "New" "bob" none "t1").2).all alertResInvariant
      = false := by
  constructor
  · decide
  · decide

/-- C1 (amended): a transition never introduces a resolution on a non-Closed
alert. For both `updateStatus` and `bulkUpdateStatus` (on a store with
distinct primary keys), any stored alert that afterwards has a non-null
resolution together with a non-Closed status carries exactly the resolution
it already had before the operation — stale data from an earlier close. The
original invariant itself is not preserved (see the counterexample):
reopening a Closed alert keeps its resolution. -/
theorem c1_no_new_resolution_on_open :
    (∀ (store : List Alert) (u st an : String) (r : Option String) (n : String),
      (store.map (fun a => a.id)).Nodup →
      ∀ (i : Nat) (a b : Alert), store.get? i = some a →
      ((update_status store u st an r n).2).get? i = some b →
      b.resolution ≠ none → b.status ≠ "Closed" → b.resolution = a.resolution) ∧
    (∀ (store : List Alert) (ids : List String) (st an : String)
      (r : Option String) (n : String),
      (store.map (fun a => a.id)).Nodup →
      ∀ (i : Nat) (a b : Alert), store.get? i = some a →
      ((bulk_update_status store ids st an r n).2).get? i = some b →
      b.resolution ≠ none → b.status ≠ "Closed" → b.resolution = a.resolution) := by
  have key : ∀ (a b : Alert) (st an : String) (r : Option String) (n : String),
      (b = a ∨ b = applyUpdate a st an r n) → b.status ≠ "Closed" →
      b.resolution = a.resolution := by
    rintro a b st an r n (rfl | rfl) hne
    · rfl
    · have hst : st ≠ "Closed" := by
        rw [← applyUpdate_status a st an r n]; exact hne
      exact applyUpdate_resolution_of_not_closed a st an r n hst
  constructor
  · intro store u st an r n hnd i a b ha hb _ hne
    rcases update_status_get? store u st an r n hnd i a ha with h1 | h1
    · exact key a b st an r n (Or.inl (by rw [h1] at hb; exact (Option.some.injEq _ _ ▸ hb).symm)) hne
    · exact key a b st an r n (Or.inr (by rw [h1] at hb; exact (Option.some.injEq _ _ ▸ hb).symm)) hne
  · intro store ids st an r n hnd i a b ha hb _ hne
    rcases bulk_get? ids st an r n store hnd i a ha with h1 | h1
    · exact key a b st an r n (Or.inl (by rw [h1] at hb; exact (Option.some.injEq _ _ ▸ hb).symm)) hne
    · exact key a b st an r n (Or.inr (by rw [h1] at hb; exact (Option.some.injEq _ _ ▸ hb).symm)) hne

/-- Witness for the amended C1: reopening the concrete Closed alert of
`c1Store` leaves it with exactly the stale resolution it had before. -/
theorem c1_witness :
    ((update_status c1Store "u1" "New" "bob" none "t1").2).get? 0 =
      some (applyUpdate c1Alert "New" "bob" none "t1") ∧
    (applyUpdate c1Alert "New" "bob" none "t1").resolution = c1Alert.resolution := by
  have hb : ((update_status c1Store "u1" "New" "bob" none "t1").2).get? 0 =
      some (applyUpdate c1Alert "New" "bob" none "t1") := by decide
  refine ⟨hb, ?_⟩
  exact c1_no_new_resolution_on_open.1 c1Store "u1" "New" "bob" none "t1"
    (by decide) 0 c1Alert (applyUpdate c1Alert "New" "bob" none "t1")
    (by decide) hb (by decide) (by decide)

theorem sortAlerts_length (sb so : String) (l : List Alert) :
    (sortAlerts sb so l).length = l.length := by
  unfold sortAlerts
  by_cases h : (so == "asc") = true
  · rw [if_pos h]; exact List.length_mergeSort l
  · rw [if_neg h]; exact List.length_mergeSort l

/-- C5: `totalCount` reflects the filtered set before offset/limit: it equals
the number of alerts matching the filters, is an upper bound on the number of
returned items, does not change when only offset/limit vary, and an offset
beyond the filtered set's size yields an empty page with the same total. -/
theorem c5_total_count (store : List Alert) (f : AlertFilters)
    (sb so : String) (off lim : Nat) :
    (get_all store f sb so off lim).2 = (store.filter (matchesFilters f)).length ∧
    (get_all store f sb so off lim).1.length ≤ (get_all store f sb so off lim).2 ∧
    (∀ off2 lim2 : Nat,
      (get_all store f sb so off2 lim2).2 = (get_all store f sb so off lim).2) ∧
    ((store.filter (matchesFilters f)).length ≤ off →
      (get_all store f sb so off lim).1 = []) := by
  refine ⟨rfl, ?_, fun _ _ => rfl, ?_⟩
  · show (((sortAlerts sb so (store.filter (matchesFilters f))).drop off).take
        lim).length ≤ (store.filter (matchesFilters f)).length
    rw [List.length_take, List.length_drop, sortAlerts_length]
    omega
  · intro hoff
    show ((sortAlerts sb so (store.filter (matchesFilters f))).drop off).take lim
        = []
    have hlen : (sortAlerts sb so (store.filter (matchesFilters f))).length ≤ off := by
      rw [sortAlerts_length]; exact hoff
    rw [List.drop_eq_nil_of_le hlen, List.take_nil]

/-- Witness for C5 on a concrete one-alert store with no filters: an offset
of 5 is beyond the single-element filtered set, so the page is empty while
the total count stays 1. -/
theorem c5_witness :
    (get_all w2Store {} "triggered_date" "desc" 5 20).1 = [] ∧
    (get_all w2Store {} "triggered_date" "desc" 5 20).2 = 1 := by
  have h := c5_total_count w2Store {} "triggered_date" "desc" 5 20
  refine ⟨h.2.2.2 (by decide), h.1.trans (by decide)⟩

theorem contains_open_statuses (s : String) :
    open_statuses.contains s =
      decide (s = "New" ∨ s = "In Progress" ∨ s = "Review" ∨ s = "Escalated") := by
  by_cases h1 : s = "New" <;> by_cases h2 : s = "In Progress" <;>
    by_cases h3 : s = "Review" <;> by_cases h4 : s = "Escalated" <;>
    simp [open_statuses, List.contains_cons, h1, h2, h3, h4]

/-- C6: `getStats` returns the total number of alerts, the number with an
open status (New, In Progress, Review, Escalated), the number with risk
score at least 70 regardless of status, the number Closed, and the number
that are unassigned AND open (closed-but-unassigned alerts excluded); on the
six-alert example store of §8 it returns total 6, open 4, highRisk 4,
closed 2, unassigned 3. -/
theorem c6_get_stats (store : List Alert) :
    (get_stats store).total_alerts = store.length ∧
    (get_stats store).open_alerts = store.countP (fun a =>
      decide (a.status = "New" ∨ a.status = "In Progress" ∨
        a.status = "Review" ∨ a.status = "Escalated")) ∧
    (get_stats store).high_risk_count =
      store.countP (fun a => decide (70 ≤ a.risk_score)) ∧
    (get_stats store).closed_count =
      store.countP (fun a => decide (a.status = "Closed")) ∧
    (get_stats store).unassigned_count = store.countP (fun a =>
      decide (a.assigned_analyst = none ∧ (a.status = "New" ∨
        a.status = "In Progress" ∨ a.status = "Review" ∨
        a.status = "Escalated"))) ∧
    get_stats c6Store =
      { total_alerts := 6, open_alerts := 4, high_risk_count := 4
      , closed_count := 2, unassigned_count := 3 } := by
  refine ⟨rfl, ?_, ?_, ?_, ?_, by decide⟩
  · show (store.filter (fun a => open_statuses.contains a.status)).length = _
    rw [List.countP_eq_length_filter]
    exact congrArg List.length
      (List.filter_congr (fun a _ => contains_open_statuses a.status))
  · rw [List.countP_eq_length_filter]; rfl
  · show (store.filter (fun a => a.status == "Closed")).length = _
    rw [List.countP_eq_length_filter]
    refine congrArg List.length (List.filter_congr (fun a _ => ?_))
    by_cases h : a.status = "Closed" <;> simp [h]
  · show (store.filter (fun a =>
        a.assigned_analyst.isNone && open_statuses.contains a.status)).length = _
    rw [List.countP_eq_length_filter]
    refine congrArg List.length (List.filter_congr (fun a _ => ?_))
    cases ha : a.assigned_analyst with
    | none =>
      simp only [ha, Option.isNone_none, Bool.true_and, contains_open_statuses]
      rw [decide_eq_decide]
      simp
    | some v => simp [ha]

theorem statusFilter_comma (a : Alert) :
    statusFilterPred (some "New,In Progress") a =
      (a.status == "New" || a.status == "In Progress") := by
  have hne : ¬((("New,In Progress" : String) == "") = true) := by decide
  have hcomma : ("New,In Progress".data.contains ',') = true := by decide
  have hsplit : ((pySplit ',' "New,In Progress".data).map pyStrip) =
      ["New".data, "In Progress".data] := by decide
  show (if ("New,In Progress" : String) == "" then true
    else if "New,In Progress".data.contains ',' then
      ((pySplit ',' "New,In Progress".data).map pyStrip).contains a.status.data
    else a.status == "New,In Progress") = _
  rw [if_neg hne, if_pos hcomma, hsplit]
  rw [List.contains_cons, List.contains_cons]
  have hnil : (([] : List (List Char)).contains a.status.data) = false := rfl
  rw [hnil, Bool.or_false, data_beq, data_beq]

theorem contains_data_eq_any (y : String) : ∀ parts : List (List Char),
    (parts.contains y.data) =
      (parts.map (fun l => String.mk l)).any (fun t => y == t) := by
  intro parts
  induction parts with
  | nil => rfl
  | cons p ps ih =>
    rw [List.contains_cons, List.map_cons, List.any_cons, ih]
    congr 1
    exact data_beq y (String.mk p)

theorem statusFilter_general (s : String) (a : Alert)
    (hcomma : s.data.contains ',' = true) :
    statusFilterPred (some s) a = (statusList s).any (fun t => a.status == t) := by
  have hne : ¬((s == "") = true) := by
    intro h
    have hs : s = "" := beq_iff_eq.mp h
    rw [hs] at hcomma
    exact absurd hcomma (by decide)
  show (if s == "" then true
    else if s.data.contains ',' then
      ((pySplit ',' s.data).map pyStrip).contains a.status.data
    else a.status == s) = _
  rw [if_neg hne, if_pos hcomma]
  unfold statusList
  rw [contains_data_eq_any]

/-- C8: a comma-separated status filter has OR semantics across the listed
statuses and AND semantics with every other active filter. For every status
value containing a comma, the query matches an alert exactly when the alert
passes all remaining filters and its status equals one of the listed
(split and stripped) statuses; in particular, filtering by
"New,In Progress" matches exactly the alerts passing the other filters
whose status is New or In Progress. -/
theorem c8_comma_status_filter :
    (∀ (s : String) (f : AlertFilters) (a : Alert),
      s.data.contains ',' = true →
      matchesFilters { f with status := some s } a =
        (matchesFilters { f with status := none } a &&
          (statusList s).any (fun t => a.status == t))) ∧
    (∀ (f : AlertFilters) (a : Alert),
      matchesFilters { f with status := some "New,In Progress" } a =
        (matchesFilters { f with status := none } a &&
          (a.status == "New" || a.status == "In Progress"))) := by
  constructor
  · intro s f a hcomma
    unfold matchesFilters
    simp only [statusFilter_general s a hcomma]
    cases hS : (statusList s).any (fun t => a.status == t) <;>
      cases ht : (match f.typology with
        | none => true
        | some t => if t == "" then true else a.typology == t) <;>
      simp [statusFilterPred, hS, ht, Bool.and_assoc]
  · intro f a
    unfold matchesFilters
    simp only [statusFilter_comma]
    cases hS : (a.status == "New" || a.status == "In Progress") <;>
      cases ht : (match f.typology with
        | none => true
        | some t => if t == "" then true else a.typology == t) <;>
      simp [statusFilterPred, hS, ht, Bool.and_assoc]

/-- Witness for C8: the general OR-semantics clause applied to the concrete
filter value "New,Review" (a list not fixed in the claim's example) on the
concrete alert `w2Alert`. -/
theorem c8_witness :
    ("New,Review" : String).data.contains ',' = true ∧
    matchesFilters { w8Filters with status := some "New,Review" } w2Alert =
      (matchesFilters { w8Filters with status := none } w2Alert &&
        (statusList "New,Review").any (fun t => w2Alert.status == t)) := by
  have hcomma : ("New,Review" : String).data.contains ',' = true := by decide
  exact ⟨hcomma, c8_comma_status_filter.1 "New,Review" w8Filters w2Alert hcomma⟩

theorem filter_not_failed (store : List Alert) (ids : List String) :
    ids.filter
        (fun i => !((ids.filter (fun j => !(idPresent store j))).contains i)) =
      ids.filter (fun i => (get_by_id store i).isSome) := by
  refine List.filter_congr (fun i hi => ?_)
  by_cases hp : idPresent store i = true
  · cases hcc : (ids.filter (fun j => !(idPresent store j))).contains i
    · rw [get_by_id_isSome]
      simp only [hcc, Bool.not_false]
      exact hp.symm
    · exfalso
      have hmem : i ∈ ids.filter (fun j => !(idPresent store j)) :=
        List.elem_iff.mp hcc
      have := (List.mem_filter.mp hmem).2
      rw [hp] at this
      exact Bool.false_ne_true (by simpa using this)
  · have hpf : idPresent store i = false := by simpa using hp
    have hcc : (ids.filter (fun j => !(idPresent store j))).contains i = true :=
      List.elem_iff.mpr (List.mem_filter.mpr ⟨hi, by rw [hpf]; rfl⟩)
    rw [hcc, get_by_id_isSome]
    simp only [Bool.not_true]
    exact hpf.symm

/-- C3: `bulkUpdateStatus` (as invoked by the bulk-close route) processes
every id regardless of earlier failures: the failed ids are exactly the ids
whose alert is missing, in input order; the success count is the number of
ids whose alert was found and updated; and the route appends exactly one
`"bulk_close"` audit entry performed by the analyst per successful id and
none for a failed id. -/
theorem c3_bulk_close (store : List Alert) (audit : List AuditEntry)
    (ids : List String) (an rat res n : String) :
    (bulk_close_alerts store audit ids an rat res n).1.1 =
      (ids.filter (fun i => (get_by_id store i).isSome)).length ∧
    (bulk_close_alerts store audit ids an rat res n).1.2 =
      ids.filter (fun i => !((get_by_id store i).isSome)) ∧
    (bulk_close_alerts store audit ids an rat res n).2.2 =
      audit ++ (ids.filter (fun i => (get_by_id store i).isSome)).map
        (fun i => bulkCloseEntry i an rat res) ∧
    ∀ e ∈ (ids.filter (fun i => (get_by_id store i).isSome)).map
        (fun i => bulkCloseEntry i an rat res),
      e.action = "bulk_close" ∧ e.performed_by = an := by
  have hc := bulk_counts ids "Closed" an (some res) n store
  have hps : (fun i => idPresent store i) = fun i => (get_by_id store i).isSome := by
    funext i; exact (get_by_id_isSome store i).symm
  have hpn : (fun i => !(idPresent store i)) =
      fun i => !((get_by_id store i).isSome) := by
    funext i; rw [get_by_id_isSome]; rfl
  refine ⟨?_, ?_, ?_, ?_⟩
  · show (bulk_update_status store ids "Closed" an (some res) n).1.1 = _
    rw [hc.1, hps]
  · show (bulk_update_status store ids "Closed" an (some res) n).1.2 = _
    rw [hc.2, hpn]
  · show audit ++ (ids.filter (fun i =>
        !((bulk_update_status store ids "Closed" an (some res) n).1.2.contains
          i))).map (fun i => bulkCloseEntry i an rat res) = _
    rw [hc.2, filter_not_failed]
  · intro e he
    obtain ⟨i, _, hei⟩ := List.mem_map.mp he
    rw [← hei]
    exact ⟨rfl, rfl⟩

/-- Witness for C3, mirroring the §8 example: bulk-closing a valid id and a
bogus id yields one success, the bogus id as the only failure, and exactly
one `"bulk_close"` audit entry (for the valid id). -/
theorem c3_witness :
    (bulk_close_alerts w2Store [] ["u2", "bogus"] "sarah" "dup" "No Suspicion"
      "t").1.1 = 1 ∧
    (bulk_close_alerts w2Store [] ["u2", "bogus"] "sarah" "dup" "No Suspicion"
      "t").1.2 = ["bogus"] ∧
    (bulk_close_alerts w2Store [] ["u2", "bogus"] "sarah" "dup" "No Suspicion"
      "t").2.2 = [bulkCloseEntry "u2" "sarah" "dup" "No Suspicion"] := by
  have h := c3_bulk_close w2Store [] ["u2", "bogus"] "sarah" "dup" "No Suspicion"
    "t"
  refine ⟨h.1.trans (by decide), h.2.1.trans (by decide), h.2.2.1.trans ?_⟩
  show [] ++ (List.filter _ ["u2", "bogus"]).map _ = _
  have hfil : (["u2", "bogus"].filter (fun i => (get_by_id w2Store i).isSome)) =
      ["u2"] := by decide
  rw [hfil]
  rfl

theorem ranked_take_length (scored : List SimilarCase) (k : Nat) :
    ((scored.mergeSort
      (fun x y => decide (y.similarity_score ≤ x.similarity_score))).take
        k).length ≤ k := by
  rw [List.length_take]
  exact inf_le_left

theorem ranked_take_mem (scored : List SimilarCase) (k : Nat)
    (x : SimilarCase)
    (hx : x ∈ (scored.mergeSort
      (fun x y => decide (y.similarity_score ≤ x.similarity_score))).take k) :
    x ∈ scored :=
  List.mem_mergeSort.mp (List.take_subset _ _ hx)

theorem ranked_take_pairwise (scored : List SimilarCase) (k : Nat) :
    ((scored.mergeSort
      (fun x y => decide (y.similarity_score ≤ x.similarity_score))).take
        k).Pairwise (fun x y => y.similarity_score ≤ x.similarity_score) := by
  have htrans : ∀ a b c : SimilarCase,
      (decide (b.similarity_score ≤ a.similarity_score)) = true →
      (decide (c.similarity_score ≤ b.similarity_score)) = true →
      (decide (c.similarity_score ≤ a.similarity_score)) = true := by
    intro a b c hab hbc
    rw [decide_eq_true_eq] at *
    exact le_trans hbc hab
  have htotal : ∀ a b : SimilarCase,
      ((decide (b.similarity_score ≤ a.similarity_score)) ||
        (decide (a.similarity_score ≤ b.similarity_score))) = true := by
    intro a b
    rw [Bool.or_eq_true, decide_eq_true_eq, decide_eq_true_eq]
    exact le_total b.similarity_score a.similarity_score
  have hp := List.sorted_mergeSort htrans htotal scored
  have hp2 := List.Pairwise.sublist (List.take_sublist k _) hp
  exact hp2.imp (fun hxy => decide_eq_true_eq.mp hxy)

/-- C4: whenever `findSimilarCases` succeeds, the returned sequence never
contains the target id, has at most 5 entries, is non-increasing in
`similarityScore`, and contains no candidate with a total score of 0
(zero-score candidates are dropped, never zero-ranked). -/
theorem c4_find_similar_cases (alerts : List Alert) (customers : List Customer)
    (aid : String) (res : List SimilarCase)
    (h : find_similar_cases alerts customers aid = some res) :
    res.length ≤ 5 ∧
    (∀ x ∈ res, x.id ≠ aid) ∧
    res.Pairwise (fun x y => y.similarity_score ≤ x.similarity_score) ∧
    (∀ x ∈ res, 0 < x.similarity_score) := by
  rcases hfind : alerts.find? (fun a => a.id == aid) with _ | target
  · unfold find_similar_cases at h
    rw [hfind] at h
    exact absurd h (by simp)
  · unfold find_similar_cases at h
    rw [hfind] at h
    have hres := Option.some.inj h
    subst hres
    refine ⟨ranked_take_length _ _, ?_, ranked_take_pairwise _ _, ?_⟩
    · intro x hx
      obtain ⟨c, hc, hfc⟩ := List.mem_filterMap.mp (ranked_take_mem _ _ _ hx)
      by_cases h0 : 0 < (scoreCandidate target
          ((customers.find? (fun c => c.id == target.customer_id)).map
            (fun c => c.risk_category)) customers c).1
      · rw [if_pos h0] at hfc
        have hxc := Option.some.inj hfc
        have hcid : x.id = c.id := by rw [← hxc]; rfl
        have hcf := (List.mem_filter.mp hc).2
        intro hxa
        rw [hcid] at hxa
        rw [hxa] at hcf
        simp at hcf
      · rw [if_neg h0] at hfc
        exact Option.noConfusion hfc
    · intro x hx
      obtain ⟨c, hc, hfc⟩ := List.mem_filterMap.mp (ranked_take_mem _ _ _ hx)
      by_cases h0 : 0 < (scoreCandidate target
          ((customers.find? (fun c => c.id == target.customer_id)).map
            (fun c => c.risk_category)) customers c).1
      · rw [if_pos h0] at hfc
        have hxc := Option.some.inj hfc
        have hsc : x.similarity_score = (scoreCandidate target
            ((customers.find? (fun c => c.id == target.customer_id)).map
              (fun c => c.risk_category)) customers c).1 := by
          rw [← hxc]; rfl
        rw [hsc]
        exact h0
      · rw [if_neg h0] at hfc
        exact Option.noConfusion hfc

/-- Witness for C4 on the concrete two-alert store: the single candidate
scores 80 and the returned list satisfies every clause of the claim. -/
theorem c4_witness :
    find_similar_cases w4Alerts w4Customers "t4" = some [w4Case] ∧
    ([w4Case].length ≤ 5 ∧
      (∀ x ∈ [w4Case], x.id ≠ "t4") ∧
      ([w4Case] : List SimilarCase).Pairwise
        (fun x y => y.similarity_score ≤ x.similarity_score) ∧
      (∀ x ∈ [w4Case], 0 < x.similarity_score)) := by
  have hfind : w4Alerts.find? (fun a => a.id == "t4") = some w4Target := by decide
  have h : find_similar_cases w4Alerts w4Customers "t4" = some [w4Case] := by
    simp only [find_similar_cases, hfind]
    rw [show List.filterMap (fun c =>
        if 0 < (scoreCandidate w4Target (Option.map (fun c => c.risk_category)
            (List.find? (fun c => c.id == w4Target.customer_id) w4Customers))
            w4Customers c).1 then
          some (mkSimilarCase c
            (scoreCandidate w4Target (Option.map (fun c => c.risk_category)
              (List.find? (fun c => c.id == w4Target.customer_id) w4Customers))
              w4Customers c).1
            (scoreCandidate w4Target (Option.map (fun c => c.risk_category)
              (List.find? (fun c => c.id == w4Target.customer_id) w4Customers))
              w4Customers c).2)
        else none) (List.filter (fun a => !(a.id == "t4")) w4Alerts) = [w4Case]
      from by decide]
    rw [List.mergeSort_singleton]
    rfl
  exact ⟨h, c4_find_similar_cases w4Alerts w4Customers "t4" [w4Case] h⟩

/-- C9: a candidate that shares the target's typology, has a risk score
within 15 points, a flagged amount within 50% of a positive target amount,
and the same (present) customer risk category scores exactly
100 = 40 + 25 + 20 + 15, and its matching factors are the four fired rule
descriptions in rule-evaluation order 1→4 (in particular, length 4). -/
theorem c9_full_match (target cand : Alert) (customers : List Customer)
    (trc : Option String) (rc : String) (ta ca : ℚ)
    (htyp : cand.typology = target.typology)
    (hrisk : (cand.risk_score - target.risk_score).natAbs ≤ 15)
    (hta : target.total_flagged_amount = some ta)
    (hta0 : 0 < ta)
    (hca : cand.total_flagged_amount = some ca)
    (hamt : |ca - ta| ≤ (1 / 2) * ta)
    (htrc : trc = some rc)
    (hcrc : (customers.find? (fun cu => cu.id == cand.customer_id)).map
      (fun cu => cu.risk_category) = some rc) :
    scoreCandidate target trc customers cand =
      (100, [typologyFactor cand, riskFactor cand target, amountFactor ca ta,
        categoryFactor rc]) := by
  have hrisk' : (cand.risk_score - target.risk_score).natAbs ≤
      RISK_SCORE_TOLERANCE := hrisk
  have hamt' : |ca - ta| ≤ ta * FLAGGED_AMOUNT_TOLERANCE := by
    show |ca - ta| ≤ ta * (1 / 2)
    rw [mul_comm]
    exact hamt
  simp only [scoreCandidate, hta, hca, htrc, hcrc, htyp, hrisk', hamt', hta0,
    eq_self_iff_true, if_true, ite_true]
  simp [TYPOLOGY_WEIGHT, RISK_SCORE_WEIGHT, FLAGGED_AMOUNT_WEIGHT,
    RISK_CATEGORY_WEIGHT]

/-- Witness for C9: the concrete pair `w9Target`/`w9Cand` (same typology,
risk 80 vs 90, amounts 1000 vs 1200, both customers "High") scores exactly
100 with the four factors in rule order. -/
theorem c9_witness :
    (w9Cand.risk_score - w9Target.risk_score).natAbs ≤ 15 ∧
    w9Target.total_flagged_amount = some 1000 ∧
    w9Cand.total_flagged_amount = some 1200 ∧
    |(1200 : ℚ) - 1000| ≤ (1 / 2) * 1000 ∧
    scoreCandidate w9Target (some "High") w4Customers w9Cand =
      (100, [typologyFactor w9Cand, riskFactor w9Cand w9Target,
        amountFactor 1200 1000, categoryFactor "High"]) := by
  refine ⟨by decide, rfl, rfl, by norm_num, ?_⟩
  exact c9_full_match w9Target w9Cand w4Customers (some "High") "High" 1000 1200
    rfl (by decide) rfl (by norm_num) rfl (by norm_num) rfl (by decide)

end AMLS
